import Mathlib

/-!
# wasm-worker: script wrappers and sandbox invocation adapters

A shallow embedding of `src/python.js` and `src/quickjs.js`.

* JavaScript strings are Lean strings; `split('\n')` and `join('\n')` are defined on the
  character lists.
* Every `await`ed collaborator (`tmp.dir`, `fs.copy`, `tmpFolder.cleanup`, `escapeJson`,
  `executeWasmer`) is a field of `World` giving its outcome, a value or a thrown `Failure`.
* An `async` function is a computation `Eff α`: it extends the ordered trace of effects and
  ends with a returned value or a thrown failure.  `try/catch` and `try/finally` are the
  combinators `tryCatch` and `tryFinally`.
-/

namespace WasmWorker

/-! ## Data model -/

/-- A value thrown by a collaborator.  The adapters never look inside it. -/
structure Failure where
  message : String
deriving DecidableEq, Repr

/-- Input data of a request (Flow type `mixed`), as far as a caller builds it. -/
inductive Mixed where
  | null
  | bool (b : Bool)
  | number (n : Int)
  | string (s : String)
  | array (items : List Mixed)
  | object (fields : List (String × Mixed))

/-- The pair `{stdout, stderr}` the executor resolves with. -/
structure ExecutionResult where
  stdout : String
  stderr : String
deriving DecidableEq, Repr

/-- A value printed by a `console` call. -/
inductive LogValue where
  | text (s : String)
  | texts (xs : List String)
  | failure (e : Failure)

/-- One argument of a `console` call: a bare value or an object literal of values. -/
inductive LogArg where
  | value (v : LogValue)
  | object (fields : List (String × LogValue))

/-- The effects a call performs, in the order it performs them. -/
inductive Event where
  | newDate
  | tmpDir
  | fsCopy (src dst : String)
  | cleanup (path : String)
  | escapeJson (inputData : Mixed)
  | executeWasmer (args : List String)
  | console (method : String) (args : List LogArg)

/-- Process environment variables read at module load. -/
structure Env where
  PYTHON_PATH : Option String
  PYTHON_LIB_PATH : Option String
  QUICKJS_PATH : Option String

/-- Behaviour of everything outside the two source files during one call. -/
structure World where
  env : Env
  /-- The serializer of `./utils.js`: an escaped literal, or a thrown failure. -/
  escapeJson : Mixed → Except Failure String
  /-- The executor of `./wasmer.js`: `{stdout, stderr}`, or a thrown failure. -/
  executeWasmer : List String → Except Failure ExecutionResult
  /-- Outcome of `tmp.dir({unsafeCleanup: true})`: the path of the new directory. -/
  tmpDir : Except Failure String
  /-- Outcome of `fs.copy(src, dst)`. -/
  fsCopy : String → String → Except Failure Unit
  /-- Outcome of `tmpFolder.cleanup()` for the directory at the given path. -/
  cleanup : String → Except Failure Unit
  /-- Milliseconds between the two clock readings of `executePython`. -/
  elapsedMs : Int

/-! ## Effectful computations -/

/-- An `async` function body: from the trace so far to an outcome and the extended trace. -/
def Eff (α : Type) : Type := List Event → Except Failure α × List Event

namespace Eff

/-- Normal completion with a value. -/
def ret {α : Type} (a : α) : Eff α := fun t => (.ok a, t)

/-- The statement `throw e`. -/
def throw {α : Type} (e : Failure) : Eff α := fun t => (.error e, t)

/-- Sequencing: a thrown failure skips the rest. -/
def bind {α β : Type} (x : Eff α) (f : α → Eff β) : Eff β := fun t =>
  match x t with
  | (.ok a, t1) => f a t1
  | (.error e, t1) => (.error e, t1)

/-- Invoke a collaborator: record the event, then continue with its outcome. -/
def call {α : Type} (ev : Event) (outcome : Except Failure α) : Eff α := fun t =>
  (outcome, t ++ [ev])

/-- The statement `try { body } catch (error) { handler }`. -/
def tryCatch {α : Type} (body : Eff α) (handler : Failure → Eff α) : Eff α := fun t =>
  match body t with
  | (.ok a, t1) => (.ok a, t1)
  | (.error e, t1) => handler e t1

/-- The statement `try { body } finally { fin }`: `fin` always runs, and a failure thrown by
`fin` replaces the outcome of `body`. -/
def tryFinally {α : Type} (body : Eff α) (fin : Eff Unit) : Eff α := fun t =>
  match body t with
  | (r, t1) =>
    match fin t1 with
    | (.ok _, t2) => (r, t2)
    | (.error e, t2) => (.error e, t2)

/-- Run a call from the empty trace. -/
def run {α : Type} (x : Eff α) : Except Failure α × List Event := x []

end Eff

instance : Monad Eff where
  pure := Eff.ret
  bind := Eff.bind

/-- A `console` call. -/
def console (method : String) (args : List LogArg) : Eff Unit :=
  Eff.call (Event.console method args) (.ok ())

/-- JavaScript `a || b` on an optional string: unset and empty are both falsy. -/
def orDefault (a : Option String) (b : String) : String :=
  match a with
  | some s => if s = "" then b else s
  | none => b

/-! ## `src/quickjs.js` -/

/-- The constant `quickJsPath` (line 13). -/
def quickJsPath (env : Env) : String :=
  orDefault env.QUICKJS_PATH "wasm/quickjs/quickjs.wasm"

/-- The template literal of `executeQuickJs` (lines 21 to 41). -/
def quickJsScript (escapedInputDataJson script : String) : String :=
  "\nconst $ = JSON.parse(" ++ escapedInputDataJson ++ ");\nconsole.error = function(...args) \x7b\n  std.err.puts(args.join(' '));\n  std.err.puts('\\n');\n\x7d\nconsole.log = console.error;\nlog = console.error;\nprint = function(...args) \x7b\n  std.out.puts(args.join(' '));\n\x7d\nlet result = function() \x7b\n" ++ script ++ "\n\x7d();\nif (result != null) \x7b\n  if (typeof result === 'object') \x7b\n    result = JSON.stringify(result);\n  \x7d\n  std.out.puts(result);\n\x7d\n"

/-- The function `executeQuickJs` (lines 15 to 52). -/
def executeQuickJs (w : World) (script : String) (args : List String) (inputData : Mixed) :
    Eff ExecutionResult := do
  let escapedInputDataJson ← Eff.call (Event.escapeJson inputData) (w.escapeJson inputData)
  let script := quickJsScript escapedInputDataJson script
  let wasmerArgs := [quickJsPath w.env, "--", "--std", "-e", script]
  Eff.tryCatch
    (do
      let r ← Eff.call (Event.executeWasmer wasmerArgs) (w.executeWasmer wasmerArgs)
      console "info" [.value (.text "executeQuickJs succeeded"),
        .object [("stdout", .text r.stdout), ("stderr", .text r.stderr)]]
      pure ⟨r.stdout, r.stderr⟩)
    (fun error => do
      console "warn" [.value (.text "executeQuickJs failed"),
        .object [("script", .text script), ("args", .texts args), ("error", .failure error)]]
      Eff.throw error)

/-- The script literal of `quickJsHealthCheck` (lines 56 to 62). -/
def quickJsHealthCheckScript : String :=
  "\n      console.log('console.log');\n      log('log');\n      console.error('console.error');\n      print(\"print\\n\");\n      return 'result';\n      "

/-- The function `quickJsHealthCheck` (lines 54 to 74).  The `try` block yields `some true`
when it returns early and `none` when control falls through to the final `return false`. -/
def quickJsHealthCheck (w : World) : Eff Bool := do
  let early ← Eff.tryCatch
    (do
      let r ← executeQuickJs w quickJsHealthCheckScript [] (.object [])
      if r.stdout = "print\nresult" ∧ r.stderr = "console.log\nlog\nconsole.error\n" then
        pure (some true)
      else do
        console "warn" [.value (.text "Unexpected healthcheck result"),
          .object [("stdout", .text r.stdout), ("stderr", .text r.stderr)]]
        pure none)
    (fun error => do
      console "warn" [.value (.text "Unexpected healthcheck error"),
        .object [("error", .failure error)]]
      pure none)
  match early with
  | some b => pure b
  | none => pure false

/-! ## `src/python.js` -/

/-- The constant `pythonBinPath` (line 15). -/
def pythonBinPath (env : Env) : String :=
  orDefault env.PYTHON_PATH "wasm/python/bin/python.wasm"

/-- The constant `pythonLibPath` (line 16). -/
def pythonLibPath (env : Env) : String :=
  orDefault env.PYTHON_LIB_PATH "wasm/python/lib"

/-- JavaScript `s.split(sep)` for a separator of one character. -/
def split (s : String) (sep : Char) : List String :=
  (s.data.splitOn sep).map String.mk

/-- JavaScript `xs.join(sep)`. -/
def join (xs : List String) (sep : String) : String :=
  sep.intercalate xs

/-- The function `prefixLines` (lines 18 to 23). -/
def prefixLines (script indent : String) : String :=
  join ((split script '\n').map fun it => indent ++ it) "\n"

/-- The template literal of `executePythonWithLibFolder` (lines 58 to 73). -/
def pythonScript (escapedInputDataJson script : String) : String :=
  "\nimport sys,json\ninputData = json.loads(" ++ escapedInputDataJson ++ ")\ndef log(*args, **kwargs):\n  print(*args, file=sys.stderr, **kwargs)\n\ndef script_fun():\n" ++ prefixLines script "  " ++ "\n\nresult = script_fun()\nif not result is None:\n  if isinstance(result, str):\n    sys.stdout.write(result)\n  else:\n    sys.stdout.write(json.dumps(result))\n"

/-- The function `executePythonWithLibFolder` (lines 50 to 99). -/
def executePythonWithLibFolder (w : World) (libFolder script : String) (args : List String)
    (inputData : Mixed) (taskId : String) : Eff ExecutionResult := do
  let escapedInputDataJson ← Eff.call (Event.escapeJson inputData) (w.escapeJson inputData)
  let script := pythonScript escapedInputDataJson script
  let wasmerArgs := [pythonBinPath w.env, "--mapdir=lib:" ++ libFolder, "--", "-B", "-q", "-c",
    script]
  Eff.tryCatch
    (do
      console "time" [.value (.text ("executePython for task: " ++ taskId ++ " took"))]
      let r ← Eff.call (Event.executeWasmer wasmerArgs) (w.executeWasmer wasmerArgs)
      console "info" [.value (.text "executePython succeeded"),
        .object [("stdout", .text r.stdout), ("stderr", .text r.stderr)]]
      console "timeEnd" [.value (.text ("executePython for task: " ++ taskId ++ " took"))]
      pure ⟨r.stdout, r.stderr⟩)
    (fun error => do
      console "warn" [.value (.text "executePython failed"),
        .object [("script", .text script), ("args", .texts args), ("error", .failure error)]]
      console "timeEnd" [.value (.text ("executePython for task: " ++ taskId ++ " took"))]
      Eff.throw error)

/-- The function `executePython` (lines 25 to 48).  A caller that omits `taskId` passes the
default `"UnknownID"`. -/
def executePython (w : World) (script : String) (args : List String) (inputData : Mixed)
    (taskId : String) : Eff ExecutionResult := do
  Eff.call Event.newDate (.ok ())
  let tmpFolder ← Eff.call Event.tmpDir w.tmpDir
  console "info" [.value (.text "Created temp directory"),
    .object [("tmpFolder", .text tmpFolder)]]
  Eff.tryFinally
    (do
      Eff.call (Event.fsCopy (pythonLibPath w.env) tmpFolder)
        (w.fsCopy (pythonLibPath w.env) tmpFolder)
      Eff.call Event.newDate (.ok ())
      console "info" [.value (.text
        ("Copied lib to temp directory in " ++ toString w.elapsedMs ++ " ms"))]
      executePythonWithLibFolder w tmpFolder script args inputData taskId)
    (Eff.call (Event.cleanup tmpFolder) (w.cleanup tmpFolder))

/-- The script literal of `pythonHealthCheck` (lines 103 to 107). -/
def pythonHealthCheckScript : String :=
  "\n      log('log')\n      print('print\\n',end='')\n      return 'result'\n      "

/-- The function `pythonHealthCheck` (lines 101 to 119).  The `try` block yields `some true`
when it returns early and `none` when control falls through to the final `return false`. -/
def pythonHealthCheck (w : World) : Eff Bool := do
  let early ← Eff.tryCatch
    (do
      let r ← executePython w pythonHealthCheckScript [] (.object []) "UnknownID"
      if r.stdout = "print\nresult" ∧ r.stderr = "log\n" then
        pure (some true)
      else do
        console "warn" [.value (.text "Unexpected healthcheck result"),
          .object [("stdout", .text r.stdout), ("stderr", .text r.stderr)]]
        pure none)
    (fun error => do
      console "error" [.value (.text "Unexpected healthcheck error"), .value (.failure error)]
      pure none)
  match early with
  | some b => pure b
  | none => pure false

/-- The `finally` block of `executePython` applied to the outcome and trace of the `try` block. -/
def release (w : World) (path : String) {α : Type} (p : Except Failure α × List Event) :
    Except Failure α × List Event :=
  match w.cleanup path with
  | .ok _ => (p.1, p.2 ++ [Event.cleanup path])
  | .error e => (.error e, p.2 ++ [Event.cleanup path])

/-! ## Observations on traces and texts -/

/-- The executor invocations of a trace, in order. -/
def executorCalls (t : List Event) : List (List String) :=
  t.filterMap fun ev => match ev with
    | .executeWasmer args => some args
    | _ => none

/-- The serializer invocations of a trace, in order. -/
def serializerCalls (t : List Event) : List Mixed :=
  t.filterMap fun ev => match ev with
    | .escapeJson inputData => some inputData
    | _ => none

/-- The workspace releases of a trace, in order. -/
def cleanupCalls (t : List Event) : List String :=
  t.filterMap fun ev => match ev with
    | .cleanup path => some path
    | _ => none

/-- Line number `k` of a text, counting from 1, lines being what `split('\n')` gives. -/
def lineAt (text : String) (k : Nat) : Option String :=
  if k = 0 then none else (split text '\n')[k - 1]?

/-- Number of lines of a text. -/
def lineCount (text : String) : Nat :=
  (split text '\n').length

/-- Lines of the Python wrapper that precede the script. -/
def pythonPreambleLines (lit : String) : List String :=
  ["", "import sys,json", "inputData = json.loads(" ++ lit ++ ")", "def log(*args, **kwargs):",
   "  print(*args, file=sys.stderr, **kwargs)", "", "def script_fun():"]

/-- Lines of the Python wrapper that follow the script. -/
def pythonEpilogueLines : List String :=
  ["", "result = script_fun()", "if not result is None:", "  if isinstance(result, str):",
   "    sys.stdout.write(result)", "  else:", "    sys.stdout.write(json.dumps(result))", ""]

/-- Lines of the JavaScript wrapper that precede the script. -/
def quickJsPreambleLines (lit : String) : List String :=
  ["", "const $ = JSON.parse(" ++ lit ++ ");", "console.error = function(...args) \x7b",
   "  std.err.puts(args.join(' '));", "  std.err.puts('\\n');", "\x7d",
   "console.log = console.error;", "log = console.error;", "print = function(...args) \x7b",
   "  std.out.puts(args.join(' '));", "\x7d", "let result = function() \x7b"]

/-- Lines of the JavaScript wrapper that follow the script. -/
def quickJsEpilogueLines : List String :=
  ["\x7d();", "if (result != null) \x7b", "  if (typeof result === 'object') \x7b",
   "    result = JSON.stringify(result);", "  \x7d", "  std.out.puts(result);", "\x7d", ""]

/-! ## Sample worlds -/

/-- A world in which every collaborator succeeds. -/
def sampleWorld : World where
  env := ⟨none, none, none⟩
  escapeJson := fun _ => .ok "\"[1,2]\""
  executeWasmer := fun _ => .ok ⟨"print\nresult", "log\n"⟩
  tmpDir := .ok "/tmp/tmp-1"
  fsCopy := fun _ _ => .ok ()
  cleanup := fun _ => .ok ()
  elapsedMs := 3

/-- A world in which only the workspace release fails. -/
def releaseFailsWorld : World :=
  { sampleWorld with cleanup := fun _ => .error ⟨"EBUSY"⟩ }

/-- A world in which the serializer and the workspace release both fail. -/
def serializerAndReleaseFailWorld : World :=
  { sampleWorld with
    escapeJson := fun _ => .error ⟨"cyclic value"⟩
    cleanup := fun _ => .error ⟨"EBUSY"⟩ }

/-- A world in which creating the temporary directory fails. -/
def tmpDirFailsWorld : World :=
  { sampleWorld with tmpDir := .error ⟨"ENOSPC"⟩ }

/-- A world in which copying the library folder fails. -/
def copyFailsWorld : World :=
  { sampleWorld with fsCopy := fun _ _ => .error ⟨"ENOENT"⟩ }

/-- A world in which only the serializer fails. -/
def serializerFailsWorld : World :=
  { sampleWorld with escapeJson := fun _ => .error ⟨"cyclic value"⟩ }

/-! ## Concrete runs -/

theorem prefixLines_sample :
    prefixLines "a\n\nb\n" "  " = "  a\n  \n  b\n  " := by decide

theorem split_sample : split "a\n\nb\n" '\n' = ["a", "", "b", ""] := by decide

theorem pythonScript_sample_line :
    lineAt (pythonScript "\"[1,2]\"" "x = 1\nreturn x") 8 = some "  x = 1" := by
  decide

theorem executePython_sample_run :
    (executePython sampleWorld "return 1" [] (.object []) "task-7").run =
      (.ok ⟨"print\nresult", "log\n"⟩,
        [Event.newDate, Event.tmpDir,
         Event.console "info" [.value (.text "Created temp directory"),
           .object [("tmpFolder", .text "/tmp/tmp-1")]],
         Event.fsCopy "wasm/python/lib" "/tmp/tmp-1",
         Event.newDate,
         Event.console "info" [.value (.text "Copied lib to temp directory in 3 ms")],
         Event.escapeJson (.object []),
         Event.console "time" [.value (.text "executePython for task: task-7 took")],
         Event.executeWasmer ["wasm/python/bin/python.wasm", "--mapdir=lib:/tmp/tmp-1", "--",
           "-B", "-q", "-c", pythonScript "\"[1,2]\"" "return 1"],
         Event.console "info" [.value (.text "executePython succeeded"),
           .object [("stdout", .text "print\nresult"), ("stderr", .text "log\n")]],
         Event.console "timeEnd" [.value (.text "executePython for task: task-7 took")],
         Event.cleanup "/tmp/tmp-1"]) := by
  rfl

theorem pythonHealthCheck_sample : (pythonHealthCheck sampleWorld).run.1 = .ok true := by
  rfl

theorem quickJsHealthCheck_sample : (quickJsHealthCheck sampleWorld).run.1 = .ok false := by
  rfl

set_option maxRecDepth 8000 in
theorem pythonScript_sample :
    pythonScript "\"[1,2]\"" "x = 1\nreturn x" =
      "\nimport sys,json\ninputData = json.loads(\"[1,2]\")\ndef log(*args, **kwargs):\n  print(*args, file=sys.stderr, **kwargs)\n\ndef script_fun():\n  x = 1\n  return x\n\nresult = script_fun()\nif not result is None:\n  if isinstance(result, str):\n    sys.stdout.write(result)\n  else:\n    sys.stdout.write(json.dumps(result))\n" := by
  decide

set_option maxRecDepth 8000 in
theorem quickJsScript_sample :
    quickJsScript "\"[1,2]\"" "return 1" =
      "\nconst $ = JSON.parse(\"[1,2]\");\nconsole.error = function(...args) \x7b\n  std.err.puts(args.join(' '));\n  std.err.puts('\\n');\n\x7d\nconsole.log = console.error;\nlog = console.error;\nprint = function(...args) \x7b\n  std.out.puts(args.join(' '));\n\x7d\nlet result = function() \x7b\nreturn 1\n\x7d();\nif (result != null) \x7b\n  if (typeof result === 'object') \x7b\n    result = JSON.stringify(result);\n  \x7d\n  std.out.puts(result);\n\x7d\n" := by
  decide

/-! ## Splitting and joining -/

theorem intercalate_go_data (sep : String) (xs : List String) (acc : String) :
    (String.intercalate.go acc sep xs).data
      = acc.data ++ (xs.map fun x => sep.data ++ x.data).flatten := by
  induction xs generalizing acc with
  | nil => simp [String.intercalate.go]
  | cons x xs ih => simp [String.intercalate.go, ih, String.data_append]

theorem flatten_intersperse_cons (sep a : List Char) (l : List (List Char)) :
    (List.intersperse sep (a :: l)).flatten = a ++ (l.map fun x => sep ++ x).flatten := by
  induction l generalizing a with
  | nil => simp
  | cons y ys ih => simp [List.intersperse, ih]

theorem join_data (xs : List String) (sep : String) :
    (join xs sep).data = sep.data.intercalate (xs.map String.data) := by
  cases xs with
  | nil => simp [join, String.intercalate, List.intercalate]
  | cons x xs =>
    simp [join, String.intercalate, intercalate_go_data, List.intercalate,
      flatten_intersperse_cons, Function.comp_def]

theorem not_mem_of_mem_splitOn (c : Char) (xs : List Char) :
    ∀ l ∈ xs.splitOn c, c ∉ l := by
  induction xs with
  | nil => simp
  | cons x xs ih =>
    intro l hl
    simp only [List.splitOn, List.splitOnP_cons] at hl ih
    by_cases hx : (x == c) = true
    · simp only [hx, if_true, List.mem_cons] at hl
      rcases hl with hl | hl
      · simp [hl]
      · exact ih l hl
    · simp only [hx] at hl
      obtain ⟨h, t, hs⟩ : ∃ h t, List.splitOnP (fun y => y == c) xs = h :: t := by
        cases hs : List.splitOnP (fun y => y == c) xs with
        | nil => exact absurd hs (List.splitOnP_ne_nil _ _)
        | cons h t => exact ⟨h, t, rfl⟩
      rw [hs] at hl ih
      have hl2 : l = x :: h ∨ l ∈ t := by simpa [List.modifyHead] using hl
      rcases hl2 with hl | hl
      · have h1 := ih h (List.mem_cons_self _ _)
        rw [hl]
        simp only [List.mem_cons, not_or]
        refine ⟨?_, h1⟩
        intro hcx; apply hx; simp [hcx]
      · exact ih l (List.mem_cons_of_mem _ hl)

theorem split_ne_nil (s : String) (c : Char) : split s c ≠ [] := by
  simp [split, List.splitOn, List.splitOnP_ne_nil]

theorem not_mem_of_mem_split (s : String) (c : Char) :
    ∀ l ∈ split s c, c ∉ l.data := by
  intro l hl
  simp only [split, List.mem_map] at hl
  obtain ⟨d, hd, rfl⟩ := hl
  exact not_mem_of_mem_splitOn c s.data d hd

/-- Splitting undoes joining when no joined piece contains the separator. -/
theorem split_join (xs : List String) (hne : xs ≠ [])
    (hx : ∀ l ∈ xs, '\n' ∉ l.data) : split (join xs "\n") '\n' = xs := by
  have h1 : (join xs "\n").data = ['\n'].intercalate (xs.map String.data) := by
    rw [join_data]
  have h2 : (['\n'].intercalate (xs.map String.data)).splitOn '\n' = xs.map String.data :=
    List.splitOn_intercalate (xs.map String.data) '\n' (by simpa using hx) (by simpa using hne)
  simp only [split, h1, h2, List.map_map]
  have h3 : (String.mk ∘ String.data) = id := by funext s; rfl
  rw [h3, List.map_id]

theorem join_cons_cons (a b : String) (xs : List String) (sep : String) :
    join (a :: b :: xs) sep = a ++ sep ++ join (b :: xs) sep := by
  apply String.ext
  simp [join_data, List.intercalate, List.intersperse, String.data_append]

theorem join_singleton (a : String) (sep : String) : join [a] sep = a := by
  simp [join, String.intercalate, String.intercalate.go]

theorem join_append (xs ys : List String) (sep : String) (hx : xs ≠ []) (hy : ys ≠ []) :
    join (xs ++ ys) sep = join xs sep ++ sep ++ join ys sep := by
  induction xs with
  | nil => exact absurd rfl hx
  | cons a as ih =>
    cases as with
    | nil =>
      cases ys with
      | nil => exact absurd rfl hy
      | cons b bs => simp [join_cons_cons, join_singleton]
    | cons a2 as =>
      have := ih (by simp)
      simp only [List.cons_append] at this ⊢
      rw [join_cons_cons, this, join_cons_cons]
      simp [String.append_assoc]


theorem pythonScript_eq_join (lit s : String) :
    pythonScript lit s =
      join (pythonPreambleLines lit ++ ((split s '\n').map fun it => "  " ++ it)
        ++ pythonEpilogueLines) "\n" := by
  have c1 : "\nimport sys,json\ninputData = json.loads("
      = "" ++ "\n" ++ "import sys,json" ++ "\n" ++ "inputData = json.loads(" := by decide
  have c2 : ")\ndef log(*args, **kwargs):\n  print(*args, file=sys.stderr, **kwargs)\n\ndef script_fun():\n"
      = ")" ++ "\n" ++ "def log(*args, **kwargs):" ++ "\n"
        ++ "  print(*args, file=sys.stderr, **kwargs)" ++ "\n" ++ "" ++ "\n"
        ++ "def script_fun():" ++ "\n" := by decide
  have c3 : "\n\nresult = script_fun()\nif not result is None:\n  if isinstance(result, str):\n    sys.stdout.write(result)\n  else:\n    sys.stdout.write(json.dumps(result))\n"
      = "\n" ++ "" ++ "\n" ++ "result = script_fun()" ++ "\n" ++ "if not result is None:" ++ "\n"
        ++ "  if isinstance(result, str):" ++ "\n" ++ "    sys.stdout.write(result)" ++ "\n"
        ++ "  else:" ++ "\n" ++ "    sys.stdout.write(json.dumps(result))" ++ "\n" ++ "" := by
    decide
  have hm : ((split s '\n').map fun it => "  " ++ it) ≠ [] := by
    simp [split_ne_nil]
  rw [join_append _ _ _ (by simp [pythonPreambleLines, hm]) (by simp [pythonEpilogueLines]),
    join_append _ _ _ (by simp [pythonPreambleLines]) hm]
  simp only [pythonScript, prefixLines, pythonPreambleLines, pythonEpilogueLines, join_cons_cons,
    join_singleton, c1, c2, c3, String.append_assoc]


theorem join_split (s : String) : join (split s '\n') "\n" = s := by
  apply String.ext
  rw [join_data]
  simp only [split, List.map_map]
  have h3 : (String.data ∘ String.mk) = id := by funext s; rfl
  rw [h3, List.map_id]
  exact List.intercalate_splitOn s.data '\n'

set_option maxRecDepth 8000 in
theorem quickJsScript_eq_join (lit s : String) :
    quickJsScript lit s =
      join (quickJsPreambleLines lit ++ split s '\n' ++ quickJsEpilogueLines) "\n" := by
  have c1 : "\nconst $ = JSON.parse(" = "" ++ "\n" ++ "const $ = JSON.parse(" := by decide
  have c2 : ");\nconsole.error = function(...args) \x7b\n  std.err.puts(args.join(' '));\n  std.err.puts('\\n');\n\x7d\nconsole.log = console.error;\nlog = console.error;\nprint = function(...args) \x7b\n  std.out.puts(args.join(' '));\n\x7d\nlet result = function() \x7b\n"
      = ");" ++ "\n" ++ "console.error = function(...args) \x7b" ++ "\n"
        ++ "  std.err.puts(args.join(' '));" ++ "\n" ++ "  std.err.puts('\\n');" ++ "\n"
        ++ "\x7d" ++ "\n" ++ "console.log = console.error;" ++ "\n" ++ "log = console.error;"
        ++ "\n" ++ "print = function(...args) \x7b" ++ "\n"
        ++ "  std.out.puts(args.join(' '));" ++ "\n" ++ "\x7d" ++ "\n"
        ++ "let result = function() \x7b" ++ "\n" := by decide
  have c3 : "\n\x7d();\nif (result != null) \x7b\n  if (typeof result === 'object') \x7b\n    result = JSON.stringify(result);\n  \x7d\n  std.out.puts(result);\n\x7d\n"
      = "\n" ++ "\x7d();" ++ "\n" ++ "if (result != null) \x7b" ++ "\n"
        ++ "  if (typeof result === 'object') \x7b" ++ "\n"
        ++ "    result = JSON.stringify(result);" ++ "\n" ++ "  \x7d" ++ "\n"
        ++ "  std.out.puts(result);" ++ "\n" ++ "\x7d" ++ "\n" ++ "" := by decide
  have hm : split s '\n' ≠ [] := split_ne_nil s '\n'
  rw [join_append _ _ _ (by simp [quickJsPreambleLines]) (by simp [quickJsEpilogueLines]),
    join_append _ _ _ (by simp [quickJsPreambleLines]) hm, join_split]
  simp only [quickJsScript, quickJsPreambleLines, quickJsEpilogueLines, join_cons_cons,
    join_singleton, c1, c2, c3, String.append_assoc]

theorem split_pythonScript (lit s : String) (hlit : '\n' ∉ lit.data) :
    split (pythonScript lit s) '\n' =
      pythonPreambleLines lit ++ ((split s '\n').map fun it => "  " ++ it)
        ++ pythonEpilogueLines := by
  rw [pythonScript_eq_join]
  apply split_join
  · simp [pythonPreambleLines]
  · intro l hl
    simp only [List.mem_append, List.mem_map] at hl
    rcases hl with (hl | ⟨x, hx, rfl⟩) | hl
    · simp only [pythonPreambleLines, List.mem_cons, List.mem_singleton, List.not_mem_nil,
        or_false] at hl
      rcases hl with rfl | rfl | rfl | rfl | rfl | rfl | rfl <;>
        first
          | decide
          | (simp only [String.data_append, List.mem_append, not_or]
             exact ⟨⟨by decide, hlit⟩, by decide⟩)
    · simp only [String.data_append, List.mem_append, not_or]
      exact ⟨by decide, not_mem_of_mem_split s '\n' x hx⟩
    · simp only [pythonEpilogueLines, List.mem_cons, List.mem_singleton, List.not_mem_nil,
        or_false] at hl
      rcases hl with rfl | rfl | rfl | rfl | rfl | rfl | rfl | rfl <;> decide

theorem split_quickJsScript (lit s : String) (hlit : '\n' ∉ lit.data) :
    split (quickJsScript lit s) '\n' =
      quickJsPreambleLines lit ++ split s '\n' ++ quickJsEpilogueLines := by
  rw [quickJsScript_eq_join]
  apply split_join
  · simp [quickJsPreambleLines]
  · intro l hl
    simp only [List.mem_append] at hl
    rcases hl with (hl | hl) | hl
    · simp only [quickJsPreambleLines, List.mem_cons, List.mem_singleton, List.not_mem_nil,
        or_false] at hl
      rcases hl with rfl | rfl | rfl | rfl | rfl | rfl | rfl | rfl | rfl | rfl | rfl | rfl <;>
        first
          | decide
          | (simp only [String.data_append, List.mem_append, not_or]
             exact ⟨⟨by decide, hlit⟩, by decide⟩)
    · exact not_mem_of_mem_split s '\n' l hl
    · simp only [quickJsEpilogueLines, List.mem_cons, List.mem_singleton, List.not_mem_nil,
        or_false] at hl
      rcases hl with rfl | rfl | rfl | rfl | rfl | rfl | rfl | rfl <;> decide


theorem getElem?_three_mid (a b c : List String) (i : Nat) (x : String)
    (h : b[i]? = some x) : (a ++ b ++ c)[a.length + i]? = some x := by
  have hi : i < b.length := by
    rcases Nat.lt_or_ge i b.length with hlt | hge
    · exact hlt
    · rw [List.getElem?_eq_none hge] at h; cases h
  rw [List.getElem?_append_left (by simp; omega), List.getElem?_append_right (by omega)]
  simpa using h

/-- C3 (as stated): with the indent "\n" the one-line script "a" becomes two lines. -/
theorem prefixLines_newline_indent_splits_lines :
    ¬ ((split (prefixLines "a" "\n") '\n').length = (split "a" '\n').length ∧
       ∀ i : Nat, (split (prefixLines "a" "\n") '\n')[i]?
          = ((split "a" '\n')[i]?).map fun l => "\n" ++ l) := by
  intro h
  exact absurd h.1 (by decide)

/-- C3 (amended): for an indent without a line feed, `prefixLines` keeps the number of lines
and its line `i` is the indent followed by line `i` of the script. -/
theorem prefixLines_preserves_lines (s p : String) (hp : '\n' ∉ p.data) :
    (split (prefixLines s p) '\n').length = (split s '\n').length ∧
    ∀ i : Nat, (split (prefixLines s p) '\n')[i]? = ((split s '\n')[i]?).map fun l => p ++ l := by
  have h : split (prefixLines s p) '\n' = (split s '\n').map fun it => p ++ it := by
    apply split_join
    · simp [split_ne_nil]
    · intro l hl
      simp only [List.mem_map] at hl
      obtain ⟨x, hx, rfl⟩ := hl
      simp only [String.data_append, List.mem_append, not_or]
      exact ⟨hp, not_mem_of_mem_split s '\n' x hx⟩
  rw [h]
  exact ⟨by simp, fun i => by simp⟩

/-- Witness of C3 (amended) at a script with an empty line and a trailing line feed. -/
theorem prefixLines_preserves_lines_witness :
    '\n' ∉ "  ".data ∧
    (split (prefixLines "a\n\nb\n" "  ") '\n').length = (split "a\n\nb\n" '\n').length ∧
    ∀ i : Nat, (split (prefixLines "a\n\nb\n" "  ") '\n')[i]?
      = ((split "a\n\nb\n" '\n')[i]?).map fun l => "  " ++ l :=
  ⟨by decide, prefixLines_preserves_lines "a\n\nb\n" "  " (by decide)⟩

/-- C4: for a serialized literal without a line feed, line `k` of the script (counting from
1) is line `7 + k` of the Python program, where it is two spaces followed by that line, and
line `12 + k` of the JavaScript program; the Python program of a script of `n` lines has
`n + 15` lines; a line number `m` of a program that falls on the script maps back to script
line `m - 7`, respectively `m - 12`. -/
theorem wrapper_line_numbers (lit s : String) (hlit : '\n' ∉ lit.data) :
    (∀ k l, lineAt s k = some l →
      lineAt (pythonScript lit s) (7 + k) = some ("  " ++ l) ∧
      lineAt (quickJsScript lit s) (12 + k) = some l) ∧
    lineCount (pythonScript lit s) = lineCount s + 15 ∧
    (∀ m, 7 < m → m ≤ 7 + lineCount s →
      lineAt (pythonScript lit s) m = (lineAt s (m - 7)).map fun l => "  " ++ l) ∧
    (∀ m, 12 < m → m ≤ 12 + lineCount s →
      lineAt (quickJsScript lit s) m = lineAt s (m - 12)) := by
  have hp := split_pythonScript lit s hlit
  have hj := split_quickJsScript lit s hlit
  have key : ∀ k l, lineAt s k = some l →
      lineAt (pythonScript lit s) (7 + k) = some ("  " ++ l) ∧
      lineAt (quickJsScript lit s) (12 + k) = some l := by
    intro k l hk
    unfold lineAt at hk ⊢
    by_cases hk0 : k = 0
    · simp [hk0] at hk
    · rw [if_neg hk0] at hk
      rw [if_neg (by omega), if_neg (by omega), hp, hj]
      constructor
      · have e : 7 + k - 1 = (pythonPreambleLines lit).length + (k - 1) := by
          simp [pythonPreambleLines]; omega
        rw [e]
        apply getElem?_three_mid
        simp [hk]
      · have e : 12 + k - 1 = (quickJsPreambleLines lit).length + (k - 1) := by
          simp [quickJsPreambleLines]; omega
        rw [e]
        exact getElem?_three_mid _ _ _ _ _ hk
  have hline : ∀ j, 0 < j → j ≤ lineCount s → ∃ l, lineAt s j = some l := by
    intro j h0 hj
    unfold lineAt lineCount at *
    rw [if_neg (by omega)]
    exact ⟨(split s '\n')[j - 1], List.getElem?_eq_getElem (by omega)⟩
  refine ⟨key, ?_, ?_, ?_⟩
  · simp [lineCount, hp, pythonPreambleLines, pythonEpilogueLines]
  · intro m h1 h2
    obtain ⟨l, hl⟩ := hline (m - 7) (by omega) (by omega)
    have := (key (m - 7) l hl).1
    rw [show 7 + (m - 7) = m by omega] at this
    rw [this, hl]; rfl
  · intro m h1 h2
    obtain ⟨l, hl⟩ := hline (m - 12) (by omega) (by omega)
    have := (key (m - 12) l hl).2
    rw [show 12 + (m - 12) = m by omega] at this
    rw [this, hl]

/-- Witness of C4 at the literal `"[1,2]"` and a script of two lines. -/
theorem wrapper_line_numbers_witness :
    '\n' ∉ "\"[1,2]\"".data ∧
    (∀ k l, lineAt "x = 1\nreturn x" k = some l →
      lineAt (pythonScript "\"[1,2]\"" "x = 1\nreturn x") (7 + k) = some ("  " ++ l) ∧
      lineAt (quickJsScript "\"[1,2]\"" "x = 1\nreturn x") (12 + k) = some l) ∧
    lineCount (pythonScript "\"[1,2]\"" "x = 1\nreturn x")
      = lineCount "x = 1\nreturn x" + 15 ∧
    (∀ m, 7 < m → m ≤ 7 + lineCount "x = 1\nreturn x" →
      lineAt (pythonScript "\"[1,2]\"" "x = 1\nreturn x") m
        = (lineAt "x = 1\nreturn x" (m - 7)).map fun l => "  " ++ l) ∧
    (∀ m, 12 < m → m ≤ 12 + lineCount "x = 1\nreturn x" →
      lineAt (quickJsScript "\"[1,2]\"" "x = 1\nreturn x") m
        = lineAt "x = 1\nreturn x" (m - 12)) :=
  ⟨by decide, wrapper_line_numbers "\"[1,2]\"" "x = 1\nreturn x" (by decide)⟩

/-! ## Runs of the adapters -/

theorem executeQuickJs_run (w : World) (script : String) (args : List String)
    (inputData : Mixed) (t : List Event) :
    executeQuickJs w script args inputData t =
      match w.escapeJson inputData with
      | .error e => (.error e, t ++ [Event.escapeJson inputData])
      | .ok lit =>
        match w.executeWasmer [quickJsPath w.env, "--", "--std", "-e", quickJsScript lit script] with
        | .ok r => (.ok r, t ++ [Event.escapeJson inputData,
            Event.executeWasmer [quickJsPath w.env, "--", "--std", "-e", quickJsScript lit script],
            Event.console "info" [.value (.text "executeQuickJs succeeded"),
              .object [("stdout", .text r.stdout), ("stderr", .text r.stderr)]]])
        | .error e => (.error e, t ++ [Event.escapeJson inputData,
            Event.executeWasmer [quickJsPath w.env, "--", "--std", "-e", quickJsScript lit script],
            Event.console "warn" [.value (.text "executeQuickJs failed"),
              .object [("script", .text (quickJsScript lit script)), ("args", .texts args),
                ("error", .failure e)]]]) := by
  simp only [executeQuickJs, bind, Eff.bind, Eff.call, Eff.tryCatch, console, pure, Eff.ret,
    Eff.throw]
  cases h1 : w.escapeJson inputData with
  | error e => rfl
  | ok lit =>
    simp only []
    cases h2 : w.executeWasmer [quickJsPath w.env, "--", "--std", "-e", quickJsScript lit script] with
    | error e => simp
    | ok r => simp


theorem executePythonWithLibFolder_run (w : World) (libFolder script : String)
    (args : List String) (inputData : Mixed) (taskId : String) (t : List Event) :
    executePythonWithLibFolder w libFolder script args inputData taskId t =
      match w.escapeJson inputData with
      | .error e => (.error e, t ++ [Event.escapeJson inputData])
      | .ok lit =>
        match w.executeWasmer [pythonBinPath w.env, "--mapdir=lib:" ++ libFolder, "--", "-B",
            "-q", "-c", pythonScript lit script] with
        | .ok r => (.ok r, t ++ [Event.escapeJson inputData,
            Event.console "time" [.value (.text ("executePython for task: " ++ taskId ++ " took"))],
            Event.executeWasmer [pythonBinPath w.env, "--mapdir=lib:" ++ libFolder, "--", "-B",
              "-q", "-c", pythonScript lit script],
            Event.console "info" [.value (.text "executePython succeeded"),
              .object [("stdout", .text r.stdout), ("stderr", .text r.stderr)]],
            Event.console "timeEnd"
              [.value (.text ("executePython for task: " ++ taskId ++ " took"))]])
        | .error e => (.error e, t ++ [Event.escapeJson inputData,
            Event.console "time" [.value (.text ("executePython for task: " ++ taskId ++ " took"))],
            Event.executeWasmer [pythonBinPath w.env, "--mapdir=lib:" ++ libFolder, "--", "-B",
              "-q", "-c", pythonScript lit script],
            Event.console "warn" [.value (.text "executePython failed"),
              .object [("script", .text (pythonScript lit script)), ("args", .texts args),
                ("error", .failure e)]],
            Event.console "timeEnd"
              [.value (.text ("executePython for task: " ++ taskId ++ " took"))]]) := by
  simp only [executePythonWithLibFolder, bind, Eff.bind, Eff.call, Eff.tryCatch, console, pure,
    Eff.ret, Eff.throw]
  cases h1 : w.escapeJson inputData with
  | error e => rfl
  | ok lit =>
    simp only []
    cases h2 : w.executeWasmer [pythonBinPath w.env, "--mapdir=lib:" ++ libFolder, "--", "-B",
        "-q", "-c", pythonScript lit script] with
    | error e => simp
    | ok r => simp

theorem executePython_run (w : World) (script : String) (args : List String)
    (inputData : Mixed) (taskId : String) (t : List Event) :
    executePython w script args inputData taskId t =
      match w.tmpDir with
      | .error e => (.error e, t ++ [Event.newDate, Event.tmpDir])
      | .ok path =>
        match w.fsCopy (pythonLibPath w.env) path with
        | .error e => release w path (.error e, t ++ [Event.newDate, Event.tmpDir,
            Event.console "info" [.value (.text "Created temp directory"),
              .object [("tmpFolder", .text path)]],
            Event.fsCopy (pythonLibPath w.env) path])
        | .ok _ => release w path
            (executePythonWithLibFolder w path script args inputData taskId
              (t ++ [Event.newDate, Event.tmpDir,
                Event.console "info" [.value (.text "Created temp directory"),
                  .object [("tmpFolder", .text path)]],
                Event.fsCopy (pythonLibPath w.env) path, Event.newDate,
                Event.console "info" [.value (.text
                  ("Copied lib to temp directory in " ++ toString w.elapsedMs ++ " ms"))]])) := by
  simp only [executePython, bind, Eff.bind, Eff.call, Eff.tryFinally, console, pure, Eff.ret,
    release]
  cases h1 : w.tmpDir with
  | error e => simp
  | ok path =>
    simp only [List.append_assoc, List.singleton_append]
    cases h2 : w.fsCopy (pythonLibPath w.env) path with
    | error e => cases h3 : w.cleanup path <;> simp
    | ok u => cases h3 : w.cleanup path <;> simp


/-- C1: when the input serializes, `executeQuickJs` and `executePythonWithLibFolder` invoke the
executor exactly once; a returned pair is returned as it is and a thrown failure is thrown as
it is. -/
theorem adapters_invoke_executor_once (w : World) (libFolder script : String)
    (args : List String) (inputData : Mixed) (taskId lit : String)
    (h : w.escapeJson inputData = .ok lit) :
    (∃ v, executorCalls (executeQuickJs w script args inputData).run.2 = [v] ∧
      (∀ r, w.executeWasmer v = .ok r →
        (executeQuickJs w script args inputData).run.1 = .ok r) ∧
      (∀ e, w.executeWasmer v = .error e →
        (executeQuickJs w script args inputData).run.1 = .error e)) ∧
    (∃ v, executorCalls
        (executePythonWithLibFolder w libFolder script args inputData taskId).run.2 = [v] ∧
      (∀ r, w.executeWasmer v = .ok r →
        (executePythonWithLibFolder w libFolder script args inputData taskId).run.1 = .ok r) ∧
      (∀ e, w.executeWasmer v = .error e →
        (executePythonWithLibFolder w libFolder script args inputData taskId).run.1
          = .error e)) := by
  constructor
  · refine ⟨[quickJsPath w.env, "--", "--std", "-e", quickJsScript lit script], ?_⟩
    simp only [Eff.run, executeQuickJs_run, h]
    cases h2 : w.executeWasmer [quickJsPath w.env, "--", "--std", "-e",
      quickJsScript lit script] <;> simp [executorCalls]
  · refine ⟨[pythonBinPath w.env, "--mapdir=lib:" ++ libFolder, "--", "-B", "-q", "-c",
      pythonScript lit script], ?_⟩
    simp only [Eff.run, executePythonWithLibFolder_run, h]
    cases h2 : w.executeWasmer [pythonBinPath w.env, "--mapdir=lib:" ++ libFolder, "--", "-B",
      "-q", "-c", pythonScript lit script] <;> simp [executorCalls]

/-- Witness of C1 in the world where every collaborator succeeds. -/
theorem adapters_invoke_executor_once_witness :
    sampleWorld.escapeJson (.object []) = .ok "\"[1,2]\"" ∧
    (∃ v, executorCalls (executeQuickJs sampleWorld "return 1" [] (.object [])).run.2 = [v] ∧
      (∀ r, sampleWorld.executeWasmer v = .ok r →
        (executeQuickJs sampleWorld "return 1" [] (.object [])).run.1 = .ok r) ∧
      (∀ e, sampleWorld.executeWasmer v = .error e →
        (executeQuickJs sampleWorld "return 1" [] (.object [])).run.1 = .error e)) ∧
    (∃ v, executorCalls
        (executePythonWithLibFolder sampleWorld "/tmp/tmp-1" "return 1" [] (.object [])
          "task-7").run.2 = [v] ∧
      (∀ r, sampleWorld.executeWasmer v = .ok r →
        (executePythonWithLibFolder sampleWorld "/tmp/tmp-1" "return 1" [] (.object [])
          "task-7").run.1 = .ok r) ∧
      (∀ e, sampleWorld.executeWasmer v = .error e →
        (executePythonWithLibFolder sampleWorld "/tmp/tmp-1" "return 1" [] (.object [])
          "task-7").run.1 = .error e)) :=
  ⟨rfl, adapters_invoke_executor_once sampleWorld "/tmp/tmp-1" "return 1" [] (.object [])
    "task-7" "\"[1,2]\"" rfl⟩

/-- C9: the JavaScript adapter hands the executor the five-element vector ending in the
wrapped program, which is a fixed preamble around the literal, the script, and a fixed
epilogue; the argument list `args` has no influence. -/
theorem quickJs_argument_vector (w : World) (script : String) (args : List String)
    (inputData : Mixed) :
    executorCalls (executeQuickJs w script args inputData).run.2 =
      (match w.escapeJson inputData with
       | .ok lit => [[quickJsPath w.env, "--", "--std", "-e", quickJsScript lit script]]
       | .error _ => []) ∧
    (∃ head mid tail : String, ∀ lit s, quickJsScript lit s = head ++ lit ++ mid ++ s ++ tail) ∧
    (∀ args2, (executeQuickJs w script args2 inputData).run.1
        = (executeQuickJs w script args inputData).run.1 ∧
      executorCalls (executeQuickJs w script args2 inputData).run.2
        = executorCalls (executeQuickJs w script args inputData).run.2) := by
  have key : ∀ a, executorCalls (executeQuickJs w script a inputData).run.2 =
      (match w.escapeJson inputData with
       | .ok lit => [[quickJsPath w.env, "--", "--std", "-e", quickJsScript lit script]]
       | .error _ => []) := by
    intro a
    simp only [Eff.run, executeQuickJs_run]
    cases h1 : w.escapeJson inputData with
    | error e => simp [executorCalls]
    | ok lit =>
      cases h2 : w.executeWasmer [quickJsPath w.env, "--", "--std", "-e",
        quickJsScript lit script] <;> simp [executorCalls, h2]
  refine ⟨key args, ⟨_, _, _, fun lit s => rfl⟩, fun args2 => ⟨?_, ?_⟩⟩
  · simp only [Eff.run, executeQuickJs_run]
    cases h1 : w.escapeJson inputData with
    | error e => rfl
    | ok lit =>
      cases h2 : w.executeWasmer [quickJsPath w.env, "--", "--std", "-e",
        quickJsScript lit script] <;> simp [h2]
  · rw [key, key]


theorem executePythonWithLibFolder_outcome (w : World) (libFolder script : String)
    (args : List String) (inputData : Mixed) (taskId : String) (t : List Event) :
    (executePythonWithLibFolder w libFolder script args inputData taskId t).1 =
      (executePythonWithLibFolder w libFolder script args inputData taskId).run.1 := by
  simp only [Eff.run, executePythonWithLibFolder_run]
  cases h1 : w.escapeJson inputData with
  | error e => rfl
  | ok lit =>
    cases h2 : w.executeWasmer [pythonBinPath w.env, "--mapdir=lib:" ++ libFolder, "--", "-B",
      "-q", "-c", pythonScript lit script] <;> simp [h2]

/-- C8: the Python adapter hands the executor a vector of exactly seven elements: the image
path, `--mapdir=lib:` followed by the library folder, `--`, the two flags `-q` and `-B` (the
code puts `-B` first), then `-c` immediately followed by the wrapped program as the last
element; the wrapped program is built from the script and the serialized input only, and the
vector does not depend on `args` or `taskId`. -/
theorem python_argument_vector (w : World) (libFolder script : String) (args : List String)
    (inputData : Mixed) (taskId : String) :
    executorCalls (executePythonWithLibFolder w libFolder script args inputData taskId).run.2 =
      (match w.escapeJson inputData with
       | .ok lit => [[pythonBinPath w.env, "--mapdir=lib:" ++ libFolder, "--", "-B", "-q", "-c",
            pythonScript lit script]]
       | .error _ => []) ∧
    (∃ f1 f2 : String, [f1, f2].Perm ["-q", "-B"] ∧
      executorCalls
          (executePythonWithLibFolder w libFolder script args inputData taskId).run.2 =
        (match w.escapeJson inputData with
         | .ok lit => [[pythonBinPath w.env, "--mapdir=lib:" ++ libFolder, "--", f1, f2, "-c",
              pythonScript lit script]]
         | .error _ => [])) ∧
    (executorCalls
        (executePythonWithLibFolder w libFolder script args inputData taskId).run.2).all
      (fun v => v.length == 7) = true ∧
    (∀ args2 taskId2,
      executorCalls (executePythonWithLibFolder w libFolder script args2 inputData taskId2).run.2
        = executorCalls
            (executePythonWithLibFolder w libFolder script args inputData taskId).run.2) := by
  have key : ∀ a i,
      executorCalls (executePythonWithLibFolder w libFolder script a inputData i).run.2 =
      (match w.escapeJson inputData with
       | .ok lit => [[pythonBinPath w.env, "--mapdir=lib:" ++ libFolder, "--", "-B", "-q", "-c",
            pythonScript lit script]]
       | .error _ => []) := by
    intro a i
    simp only [Eff.run, executePythonWithLibFolder_run]
    cases h1 : w.escapeJson inputData with
    | error e => simp [executorCalls]
    | ok lit =>
      cases h2 : w.executeWasmer [pythonBinPath w.env, "--mapdir=lib:" ++ libFolder, "--",
        "-B", "-q", "-c", pythonScript lit script] <;> simp [executorCalls, h2]
  refine ⟨key args taskId, ⟨"-B", "-q", List.Perm.swap "-q" "-B" [], key args taskId⟩, ?_,
    fun args2 taskId2 => by rw [key, key]⟩
  rw [key]
  cases h1 : w.escapeJson inputData <;> simp

/-- C6 (as stated): creation and copy succeed and the inner invocation returns a pair, yet
`executePython` throws the failure of the workspace release. -/
theorem executePython_release_failure_replaces_result :
    releaseFailsWorld.tmpDir = .ok "/tmp/tmp-1" ∧
    releaseFailsWorld.fsCopy (pythonLibPath releaseFailsWorld.env) "/tmp/tmp-1" = .ok () ∧
    (executePythonWithLibFolder releaseFailsWorld "/tmp/tmp-1" "return 1" [] (.object [])
        "task-7").run.1 = .ok ⟨"print\nresult", "log\n"⟩ ∧
    (executePython releaseFailsWorld "return 1" [] (.object []) "task-7").run.1
      ≠ .ok ⟨"print\nresult", "log\n"⟩ ∧
    (executePython releaseFailsWorld "return 1" [] (.object []) "task-7").run.1
      = .error ⟨"EBUSY"⟩ := by
  refine ⟨rfl, rfl, ?_, ?_, ?_⟩
  · simp only [Eff.run, executePythonWithLibFolder_run]
    simp [releaseFailsWorld, sampleWorld]
  · simp only [Eff.run, executePython_run, executePythonWithLibFolder_run, release]
    simp [releaseFailsWorld, sampleWorld]
  · simp only [Eff.run, executePython_run, executePythonWithLibFolder_run, release]
    simp [releaseFailsWorld, sampleWorld]

/-- C6 (amended): when creation, copy and release of the workspace succeed, `executePython`
returns the pair the inner invocation returns and throws the failure it throws; when the
release fails, `executePython` throws the failure of the release. -/
theorem executePython_transparent (w : World) (script : String) (args : List String)
    (inputData : Mixed) (taskId path : String) (hdir : w.tmpDir = .ok path)
    (hcopy : w.fsCopy (pythonLibPath w.env) path = .ok ()) :
    (w.cleanup path = .ok () →
      (∀ r, (executePythonWithLibFolder w path script args inputData taskId).run.1 = .ok r →
        (executePython w script args inputData taskId).run.1 = .ok r) ∧
      (∀ e, (executePythonWithLibFolder w path script args inputData taskId).run.1 = .error e →
        (executePython w script args inputData taskId).run.1 = .error e)) ∧
    (∀ e, w.cleanup path = .error e →
      (executePython w script args inputData taskId).run.1 = .error e) := by
  have h : (executePython w script args inputData taskId).run =
      release w path (executePythonWithLibFolder w path script args inputData taskId
        ([] ++ [Event.newDate, Event.tmpDir,
          Event.console "info" [.value (.text "Created temp directory"),
            .object [("tmpFolder", .text path)]],
          Event.fsCopy (pythonLibPath w.env) path, Event.newDate,
          Event.console "info" [.value (.text
            ("Copied lib to temp directory in " ++ toString w.elapsedMs ++ " ms"))]])) := by
    simp only [Eff.run, executePython_run, hdir, hcopy]
  constructor
  · intro hc
    have h2 : (executePython w script args inputData taskId).run.1 =
        (executePythonWithLibFolder w path script args inputData taskId).run.1 := by
      rw [h]
      simp only [release, hc]
      exact executePythonWithLibFolder_outcome w path script args inputData taskId _
    exact ⟨fun r hr => by rw [h2, hr], fun e he => by rw [h2, he]⟩
  · intro e hc
    rw [h]
    simp only [release, hc]

/-- Witness of C6 (amended) in the world where every collaborator succeeds. -/
theorem executePython_transparent_witness :
    sampleWorld.tmpDir = .ok "/tmp/tmp-1" ∧
    sampleWorld.fsCopy (pythonLibPath sampleWorld.env) "/tmp/tmp-1" = .ok () ∧
    (sampleWorld.cleanup "/tmp/tmp-1" = .ok () →
      (∀ r, (executePythonWithLibFolder sampleWorld "/tmp/tmp-1" "return 1" [] (.object [])
          "task-7").run.1 = .ok r →
        (executePython sampleWorld "return 1" [] (.object []) "task-7").run.1 = .ok r) ∧
      (∀ e, (executePythonWithLibFolder sampleWorld "/tmp/tmp-1" "return 1" [] (.object [])
          "task-7").run.1 = .error e →
        (executePython sampleWorld "return 1" [] (.object []) "task-7").run.1 = .error e)) ∧
    (∀ e, sampleWorld.cleanup "/tmp/tmp-1" = .error e →
      (executePython sampleWorld "return 1" [] (.object []) "task-7").run.1 = .error e) :=
  ⟨rfl, rfl, executePython_transparent sampleWorld "return 1" [] (.object []) "task-7"
    "/tmp/tmp-1" rfl rfl⟩


/-- C7 (as stated): the serializer fails inside `executePython`, yet the caller receives the
failure of the workspace release, not the serializer's. -/
theorem executePython_serializer_failure_replaced :
    serializerAndReleaseFailWorld.escapeJson (.object []) = .error ⟨"cyclic value"⟩ ∧
    serializerCalls
      (executePython serializerAndReleaseFailWorld "return 1" [] (.object []) "task-7").run.2
      = [.object []] ∧
    (executePython serializerAndReleaseFailWorld "return 1" [] (.object []) "task-7").run.1
      ≠ .error ⟨"cyclic value"⟩ ∧
    (executePython serializerAndReleaseFailWorld "return 1" [] (.object []) "task-7").run.1
      = .error ⟨"EBUSY"⟩ := by
  refine ⟨rfl, ?_, ?_, ?_⟩
  · simp only [Eff.run, executePython_run, executePythonWithLibFolder_run, release]
    simp [serializerAndReleaseFailWorld, sampleWorld, serializerCalls]
  · simp only [Eff.run, executePython_run, executePythonWithLibFolder_run, release]
    simp [serializerAndReleaseFailWorld, sampleWorld]
  · simp only [Eff.run, executePython_run, executePythonWithLibFolder_run, release]
    simp [serializerAndReleaseFailWorld, sampleWorld]

/-- C7 (amended): a serializer failure reaches the caller of `executeQuickJs`, and the caller
of `executePython` when the workspace release succeeds, and the executor is not invoked; a
failure of directory creation reaches the caller, a failure of the library copy reaches the
caller when the workspace release succeeds, and in both cases neither the serializer nor the
executor is invoked. -/
theorem executor_only_after_earlier_steps (w : World) (script : String) (args : List String)
    (inputData : Mixed) (taskId : String) :
    (∀ e, w.escapeJson inputData = .error e →
      (executeQuickJs w script args inputData).run.1 = .error e ∧
      executorCalls (executeQuickJs w script args inputData).run.2 = []) ∧
    (∀ e, w.escapeJson inputData = .error e →
      executorCalls (executePython w script args inputData taskId).run.2 = [] ∧
      ∀ path, w.tmpDir = .ok path → w.fsCopy (pythonLibPath w.env) path = .ok () →
        w.cleanup path = .ok () →
        (executePython w script args inputData taskId).run.1 = .error e) ∧
    (∀ e, w.tmpDir = .error e →
      (executePython w script args inputData taskId).run.1 = .error e ∧
      serializerCalls (executePython w script args inputData taskId).run.2 = [] ∧
      executorCalls (executePython w script args inputData taskId).run.2 = []) ∧
    (∀ path e, w.tmpDir = .ok path → w.fsCopy (pythonLibPath w.env) path = .error e →
      serializerCalls (executePython w script args inputData taskId).run.2 = [] ∧
      executorCalls (executePython w script args inputData taskId).run.2 = [] ∧
      (w.cleanup path = .ok () →
        (executePython w script args inputData taskId).run.1 = .error e)) := by
  refine ⟨?_, ?_, ?_, ?_⟩
  · intro e he
    simp only [Eff.run, executeQuickJs_run, he]
    simp [executorCalls]
  · intro e he
    constructor
    · simp only [Eff.run, executePython_run, executePythonWithLibFolder_run, he, release]
      cases h1 : w.tmpDir with
      | error e1 => simp [executorCalls]
      | ok path =>
        cases h2 : w.fsCopy (pythonLibPath w.env) path <;>
          cases h3 : w.cleanup path <;> simp [executorCalls, h2, h3]
    · intro path h1 h2 h3
      simp only [Eff.run, executePython_run, executePythonWithLibFolder_run, he, release, h1,
        h2, h3]
  · intro e h1
    simp only [Eff.run, executePython_run, h1]
    simp [executorCalls, serializerCalls]
  · intro path e h1 h2
    simp only [Eff.run, executePython_run, h1, h2, release]
    cases h3 : w.cleanup path <;> simp [executorCalls, serializerCalls]

/-- Witness of C7 (amended) in the worlds where one early step fails. -/
theorem executor_only_after_earlier_steps_witness :
    ((executeQuickJs serializerFailsWorld "return 1" [] (.object [])).run.1
        = .error ⟨"cyclic value"⟩ ∧
      executorCalls (executeQuickJs serializerFailsWorld "return 1" [] (.object [])).run.2
        = []) ∧
    (executorCalls
        (executePython serializerFailsWorld "return 1" [] (.object []) "task-7").run.2 = [] ∧
      (executePython serializerFailsWorld "return 1" [] (.object []) "task-7").run.1
        = .error ⟨"cyclic value"⟩) ∧
    ((executePython tmpDirFailsWorld "return 1" [] (.object []) "task-7").run.1
        = .error ⟨"ENOSPC"⟩ ∧
      serializerCalls
        (executePython tmpDirFailsWorld "return 1" [] (.object []) "task-7").run.2 = [] ∧
      executorCalls
        (executePython tmpDirFailsWorld "return 1" [] (.object []) "task-7").run.2 = []) ∧
    (serializerCalls
        (executePython copyFailsWorld "return 1" [] (.object []) "task-7").run.2 = [] ∧
      executorCalls
        (executePython copyFailsWorld "return 1" [] (.object []) "task-7").run.2 = [] ∧
      (executePython copyFailsWorld "return 1" [] (.object []) "task-7").run.1
        = .error ⟨"ENOENT"⟩) :=
  ⟨(executor_only_after_earlier_steps serializerFailsWorld "return 1" [] (.object [])
      "task-7").1 ⟨"cyclic value"⟩ rfl,
   ⟨((executor_only_after_earlier_steps serializerFailsWorld "return 1" [] (.object [])
      "task-7").2.1 ⟨"cyclic value"⟩ rfl).1,
    ((executor_only_after_earlier_steps serializerFailsWorld "return 1" [] (.object [])
      "task-7").2.1 ⟨"cyclic value"⟩ rfl).2 "/tmp/tmp-1" rfl rfl rfl⟩,
   (executor_only_after_earlier_steps tmpDirFailsWorld "return 1" [] (.object [])
      "task-7").2.2.1 ⟨"ENOSPC"⟩ rfl,
   ⟨((executor_only_after_earlier_steps copyFailsWorld "return 1" [] (.object [])
      "task-7").2.2.2 "/tmp/tmp-1" ⟨"ENOENT"⟩ rfl rfl).1,
    ((executor_only_after_earlier_steps copyFailsWorld "return 1" [] (.object [])
      "task-7").2.2.2 "/tmp/tmp-1" ⟨"ENOENT"⟩ rfl rfl).2.1,
    ((executor_only_after_earlier_steps copyFailsWorld "return 1" [] (.object [])
      "task-7").2.2.2 "/tmp/tmp-1" ⟨"ENOENT"⟩ rfl rfl).2.2 rfl⟩⟩


/-- The trace of `executePython` once the directory exists: the events of the `try` block
followed by the single release. -/
theorem executePython_trace (w : World) (script : String) (args : List String)
    (inputData : Mixed) (taskId path : String) (hdir : w.tmpDir = .ok path) :
    ∃ body : List Event,
      (executePython w script args inputData taskId).run.2 =
        [Event.newDate, Event.tmpDir,
          Event.console "info" [.value (.text "Created temp directory"),
            .object [("tmpFolder", .text path)]],
          Event.fsCopy (pythonLibPath w.env) path] ++ body ++ [Event.cleanup path] ∧
      cleanupCalls body = [] := by
  simp only [Eff.run, executePython_run, executePythonWithLibFolder_run, hdir, release]
  cases h2 : w.fsCopy (pythonLibPath w.env) path with
  | error e =>
    refine ⟨[], ?_, rfl⟩
    cases h3 : w.cleanup path <;> simp
  | ok u =>
    cases h4 : w.escapeJson inputData with
    | error e =>
      refine ⟨[Event.newDate, Event.console "info" [.value (.text
        ("Copied lib to temp directory in " ++ toString w.elapsedMs ++ " ms"))],
        Event.escapeJson inputData], ?_, ?_⟩
      · cases h3 : w.cleanup path <;> simp
      · simp [cleanupCalls]
    | ok lit =>
      cases h5 : w.executeWasmer [pythonBinPath w.env, "--mapdir=lib:" ++ path, "--", "-B",
          "-q", "-c", pythonScript lit script] with
      | error e =>
        refine ⟨[Event.newDate, Event.console "info" [.value (.text
          ("Copied lib to temp directory in " ++ toString w.elapsedMs ++ " ms"))],
          Event.escapeJson inputData,
          Event.console "time" [.value (.text ("executePython for task: " ++ taskId ++ " took"))],
          Event.executeWasmer [pythonBinPath w.env, "--mapdir=lib:" ++ path, "--", "-B",
            "-q", "-c", pythonScript lit script],
          Event.console "warn" [.value (.text "executePython failed"),
            .object [("script", .text (pythonScript lit script)), ("args", .texts args),
              ("error", .failure e)]],
          Event.console "timeEnd"
            [.value (.text ("executePython for task: " ++ taskId ++ " took"))]],
          ?_, ?_⟩
        · cases h3 : w.cleanup path <;> simp [h5]
        · simp [cleanupCalls]
      | ok r =>
        refine ⟨[Event.newDate, Event.console "info" [.value (.text
          ("Copied lib to temp directory in " ++ toString w.elapsedMs ++ " ms"))],
          Event.escapeJson inputData,
          Event.console "time" [.value (.text ("executePython for task: " ++ taskId ++ " took"))],
          Event.executeWasmer [pythonBinPath w.env, "--mapdir=lib:" ++ path, "--", "-B",
            "-q", "-c", pythonScript lit script],
          Event.console "info" [.value (.text "executePython succeeded"),
            .object [("stdout", .text r.stdout), ("stderr", .text r.stderr)]],
          Event.console "timeEnd"
            [.value (.text ("executePython for task: " ++ taskId ++ " took"))]],
          ?_, ?_⟩
        · cases h3 : w.cleanup path <;> simp [h5]
        · simp [cleanupCalls]


/-- C2: once the temporary directory exists, the workspace release occurs exactly once and is
the last effect of `executePython`, and every executor invocation comes after the directory
creation and the library copy and before the release. -/
theorem executePython_release_once_and_last (w : World) (script : String)
    (args : List String) (inputData : Mixed) (taskId path : String)
    (hdir : w.tmpDir = .ok path) :
    cleanupCalls (executePython w script args inputData taskId).run.2 = [path] ∧
    (executePython w script args inputData taskId).run.2.getLast? = some (Event.cleanup path) ∧
    ∀ (i : Nat) (v : List String),
      (executePython w script args inputData taskId).run.2[i]? = some (Event.executeWasmer v) →
      (∃ j, j < i ∧
        (executePython w script args inputData taskId).run.2[j]? = some Event.tmpDir) ∧
      (∃ j, j < i ∧
        (executePython w script args inputData taskId).run.2[j]?
          = some (Event.fsCopy (pythonLibPath w.env) path)) ∧
      (∃ j, i < j ∧
        (executePython w script args inputData taskId).run.2[j]?
          = some (Event.cleanup path)) := by
  obtain ⟨body, htr, hbody⟩ := executePython_trace w script args inputData taskId path hdir
  rw [htr]
  have hlast : ∀ xs : List Event, (xs ++ [Event.cleanup path])[xs.length]?
      = some (Event.cleanup path) := fun xs => List.getElem?_concat_length xs _
  have hlen4 : ([Event.newDate, Event.tmpDir,
      Event.console "info" [.value (.text "Created temp directory"),
        .object [("tmpFolder", .text path)]],
      Event.fsCopy (pythonLibPath w.env) path] ++ body).length = 4 + body.length := by
    simp; omega
  refine ⟨?_, List.getLast?_concat _, ?_⟩
  · simp only [cleanupCalls] at hbody ⊢
    simp [List.filterMap_append, hbody]
  · intro i v hi
    have hlen : i < 4 + body.length + 1 := by
      rcases Nat.lt_or_ge i (4 + body.length + 1) with h | h
      · exact h
      · rw [List.getElem?_eq_none (by simp; omega)] at hi; cases hi
    have h4 : 4 ≤ i := by
      rcases i with _ | _ | _ | _ | i <;> first | omega | simp at hi
    have hne : i ≠ 4 + body.length := by
      intro h
      rw [h, ← hlen4, hlast] at hi
      cases hi
    refine ⟨⟨1, by omega, by simp⟩, ⟨3, by omega, by simp⟩, ⟨4 + body.length, by omega, ?_⟩⟩
    rw [← hlen4, hlast]

/-- Witness of C2 in the world where every collaborator succeeds. -/
theorem executePython_release_once_and_last_witness :
    sampleWorld.tmpDir = .ok "/tmp/tmp-1" ∧
    cleanupCalls (executePython sampleWorld "return 1" [] (.object []) "task-7").run.2
      = ["/tmp/tmp-1"] ∧
    (executePython sampleWorld "return 1" [] (.object []) "task-7").run.2.getLast?
      = some (Event.cleanup "/tmp/tmp-1") ∧
    ∀ (i : Nat) (v : List String),
      (executePython sampleWorld "return 1" [] (.object []) "task-7").run.2[i]?
        = some (Event.executeWasmer v) →
      (∃ j, j < i ∧
        (executePython sampleWorld "return 1" [] (.object []) "task-7").run.2[j]?
          = some Event.tmpDir) ∧
      (∃ j, j < i ∧
        (executePython sampleWorld "return 1" [] (.object []) "task-7").run.2[j]?
          = some (Event.fsCopy (pythonLibPath sampleWorld.env) "/tmp/tmp-1")) ∧
      (∃ j, i < j ∧
        (executePython sampleWorld "return 1" [] (.object []) "task-7").run.2[j]?
          = some (Event.cleanup "/tmp/tmp-1")) :=
  ⟨rfl, executePython_release_once_and_last sampleWorld "return 1" [] (.object []) "task-7"
    "/tmp/tmp-1" rfl⟩


/-- C5: each health check returns a boolean and never throws; the boolean is `true` exactly
when the execution returned the expected pair of streams. -/
theorem healthChecks_never_throw (w : World) :
    (∃ b, (pythonHealthCheck w).run.1 = .ok b ∧
      (b = true ↔
        (executePython w pythonHealthCheckScript [] (.object []) "UnknownID").run.1
          = .ok ⟨"print\nresult", "log\n"⟩)) ∧
    (∃ b, (quickJsHealthCheck w).run.1 = .ok b ∧
      (b = true ↔
        (executeQuickJs w quickJsHealthCheckScript [] (.object [])).run.1
          = .ok ⟨"print\nresult", "console.log\nlog\nconsole.error\n"⟩)) := by
  constructor
  · simp only [pythonHealthCheck, Eff.run, bind, Eff.bind, Eff.tryCatch, console, Eff.call,
      pure, Eff.ret]
    rcases executePython w pythonHealthCheckScript [] (.object []) "UnknownID" []
      with ⟨r | r, t⟩
    · exact ⟨false, rfl, by simp⟩
    · by_cases h : r.stdout = "print\nresult" ∧ r.stderr = "log\n"
      · refine ⟨true, by simp [h, Eff.ret], ?_⟩
        obtain ⟨so, se⟩ := r
        simp only at h
        simp [h.1, h.2]
      · refine ⟨false, by simp [h, Eff.ret, Eff.bind, Eff.call], ?_⟩
        obtain ⟨so, se⟩ := r
        simp only at h
        simpa using h
  · simp only [quickJsHealthCheck, Eff.run, bind, Eff.bind, Eff.tryCatch, console, Eff.call,
      pure, Eff.ret]
    rcases executeQuickJs w quickJsHealthCheckScript [] (.object []) []
      with ⟨r | r, t⟩
    · exact ⟨false, rfl, by simp⟩
    · by_cases h : r.stdout = "print\nresult" ∧ r.stderr = "console.log\nlog\nconsole.error\n"
      · refine ⟨true, by simp [h, Eff.ret], ?_⟩
        obtain ⟨so, se⟩ := r
        simp only at h
        simp [h.1, h.2]
      · refine ⟨false, by simp [h, Eff.ret, Eff.bind, Eff.call], ?_⟩
        obtain ⟨so, se⟩ := r
        simp only at h
        simpa using h

end WasmWorker
